import Mathlib

/-!
Verification development for the Munder Difflin multi-agent repository.

Shallow embedding conventions:
- the SQLite `transactions` table is a `List Txn`; ISO-8601 timestamps are
  modelled as `Nat` day-stamps, since only the order relation `≤` matters to
  the queries (`transaction_date <= :as_of_date`);
- money is modelled as exact rationals `ℚ`; the Python `round(x, 2)` calls in
  the agent code only format values for display and are omitted;
- fallible store access is an explicit `Except String` value handed to the
  function that, in the Python code, performs the query inside `try/except`.
-/

namespace MunderDifflin

/-- A row of the `transactions` table
(src/Multi Agent Systems/project/helpers.py). -/
structure Txn where
  item_name : String
  transaction_type : String
  units : Int
  price : ℚ
  transaction_date : Nat

/-- The CASE expression of the stock query in `get_stock_level`:
`stock_orders` rows add `units`, `sales` rows subtract, anything else adds 0. -/
def stockDelta (t : Txn) : Int :=
  if t.transaction_type = ("stock_orders") then t.units
  else if t.transaction_type = ("sales") then -t.units
  else 0

/-- `get_stock_level` (helpers.py, lines 18-45): sum of the CASE expression
over the rows for `item_name` dated up to `as_of`; `COALESCE(..., 0)` makes
the empty sum 0, which the empty-list sum gives for free. -/
def get_stock_level (txns : List Txn) (item_name : String) (as_of : Nat) : Int :=
  ((txns.filter (fun t => t.item_name == item_name && decide (t.transaction_date ≤ as_of))).map
    stockDelta).sum

/-- Body of `get_cash_balance` after the query: if the selected frame is
empty return 0.0, otherwise total sales prices minus total stock-order
prices. -/
def cashFromRows (rows : List Txn) : ℚ :=
  if rows.isEmpty then 0
  else ((rows.filter (fun t => t.transaction_type == ("sales"))).map Txn.price).sum
    - ((rows.filter (fun t => t.transaction_type == ("stock_orders"))).map Txn.price).sum

/-- `get_cash_balance` (helpers.py, lines 133-159): queries all transactions
dated up to `as_of`; any exception from the store is caught and turned into
0.0. -/
def get_cash_balance (store : Except String (List Txn)) (as_of : Nat) : ℚ :=
  match store with
  | Except.error _ => 0
  | Except.ok txns => cashFromRows (txns.filter (fun t => decide (t.transaction_date ≤ as_of)))

/-- Result record of `approve_purchase`
(src/Multi Agent Systems/project/agents/financial_agent.py). -/
structure ApprovalDecision where
  approved : Bool
  purchase_amount : ℚ
  current_balance : ℚ
  balance_after_purchase : ℚ
  available_for_purchase : ℚ
  minimum_balance : ℚ

/-- `approve_purchase` (financial_agent.py, lines 46-93): the decision is
`purchase_amount <= current_balance - current_balance * safety_margin`. -/
def approve_purchase (store : Except String (List Txn)) (purchase_amount : ℚ)
    (date : Nat) (safety_margin : ℚ) : ApprovalDecision :=
  let current_balance := get_cash_balance store date
  let minimum_balance := current_balance * safety_margin
  let available_for_purchase := current_balance - minimum_balance
  let balance_after_purchase := current_balance - purchase_amount
  ⟨decide (purchase_amount ≤ available_for_purchase), purchase_amount, current_balance,
    balance_after_purchase, available_for_purchase, minimum_balance⟩

/-- A line item handed to `calculate_quote_price`
(src/Multi Agent Systems/project/agents/quoting_agent.py). -/
structure LineItem where
  item_name : String
  quantity : Nat
  unit_price : ℚ

/-- One entry of the `breakdown` list returned by `calculate_quote_price`. -/
structure QuoteLine where
  item_name : String
  quantity : Nat
  unit_price : ℚ
  item_total : ℚ

/-- The quote record returned by `calculate_quote_price`. -/
structure Quote where
  subtotal : ℚ
  discount_percent : ℚ
  discount_amount : ℚ
  total : ℚ
  total_units : Nat
  breakdown : List QuoteLine

/-- `calculate_quote_price` (quoting_agent.py, lines 49-118): sums quantities
and line totals over all items, then applies one discount tier to the summed
subtotal. -/
def calculate_quote_price (items : List LineItem) : Quote :=
  if items.isEmpty then ⟨0, 0, 0, 0, 0, []⟩
  else
    let subtotal := (items.map (fun i => (i.quantity : ℚ) * i.unit_price)).sum
    let total_units := (items.map LineItem.quantity).sum
    let breakdown := items.map
      (fun i => QuoteLine.mk i.item_name i.quantity i.unit_price ((i.quantity : ℚ) * i.unit_price))
    let discount_percent : ℚ :=
      if total_units ≤ 500 then 0 else if total_units ≤ 1000 then 10 else 15
    let discount_amount := subtotal * (discount_percent / 100)
    ⟨subtotal, discount_percent, discount_amount, subtotal - discount_amount,
      total_units, breakdown⟩

/-- `create_transaction` (helpers.py, lines 74-105): rejects any type outside
the two allowed ones before writing; otherwise appends one row and returns
`last_insert_rowid()`, the 1-based rowid of the appended row. The state-passing
embedding returns the new log alongside the id, so an error leaves no log. -/
def create_transaction (item_name transaction_type : String) (quantity : Int)
    (price : ℚ) (date : Nat) (log : List Txn) : Except String (Nat × List Txn) :=
  if transaction_type ≠ ("stock_orders") ∧ transaction_type ≠ ("sales") then
    Except.error ("Transaction type must be stock_orders or sales")
  else
    let log2 := log ++ [Txn.mk item_name transaction_type quantity price date]
    Except.ok (log2.length, log2)

/-- The quantity-to-days step function shared by `get_supplier_delivery_date`
(helpers.py, lines 108-130) and `check_delivery_timeline`
(src/Multi Agent Systems/project/agents/ordering_agent.py, lines 117-158). -/
def lead_time_days (quantity : Int) : Nat :=
  if quantity ≤ 10 then 0
  else if quantity ≤ 100 then 1
  else if quantity ≤ 1000 then 4
  else 7

/-- `get_supplier_delivery_date`: the order date plus `lead_time_days` of the
quantity (`timedelta(days=days)` on a day-stamp). -/
def get_supplier_delivery_date (input_date : Nat) (quantity : Int) : Nat :=
  input_date + lead_time_days quantity

/-- Result record of `check_delivery_timeline` (ordering_agent.py): the
delivery date comes from `get_supplier_delivery_date` and the lead time is
recomputed by the same step function. -/
structure DeliveryTimeline where
  order_date : Nat
  delivery_date : Nat
  lead_time_days : Nat
  quantity : Int

/-- `check_delivery_timeline` (ordering_agent.py, lines 117-158). -/
def check_delivery_timeline (date : Nat) (quantity : Int) : DeliveryTimeline :=
  ⟨date, get_supplier_delivery_date date quantity, lead_time_days quantity, quantity⟩

/-- A row of the read-only `inventory` catalog table. -/
structure InventoryItem where
  item_name : String
  category : String
  unit_price : ℚ
  min_stock_level : Int

/-- The parameterized catalog lookup
(`SELECT ... FROM inventory WHERE item_name = :item_name`) shared by
`check_restock_needed`, `get_item_price` and `get_item_unit_price`. -/
def findItem (catalog : List InventoryItem) (item_name : String) : Option InventoryItem :=
  catalog.find? (fun i => i.item_name == item_name)

/-- Result record of `check_restock_needed` (ordering_agent.py). -/
structure RestockInfo where
  item_name : String
  current_stock : Int
  min_stock_level : Int
  needs_restock : Bool
  recommended_reorder_qty : Int
  estimated_reorder_cost : ℚ

/-- `check_restock_needed` (ordering_agent.py, lines 162-223): compares the
derived stock to the catalog minimum; on restock, the reorder restores stock
to twice the minimum. An item missing from the catalog yields the error
dict, modelled as `none`. -/
def check_restock_needed (catalog : List InventoryItem) (txns : List Txn)
    (item_name : String) (date : Nat) : Option RestockInfo :=
  let current_stock := get_stock_level txns item_name date
  match findItem catalog item_name with
  | none => none
  | some item =>
    let needs_restock := current_stock < item.min_stock_level
    let reorder_qty : Int := if needs_restock then item.min_stock_level * 2 - current_stock else 0
    let reorder_cost : ℚ := if needs_restock then (reorder_qty : ℚ) * item.unit_price else 0
    some ⟨item_name, current_stock, item.min_stock_level, decide needs_restock,
      reorder_qty, reorder_cost⟩

/-- `get_item_price` (src/Multi Agent Systems/project/agents/inventory_agent.py,
lines 93-111): the unit price, or the sentinel -1.0 when the item is not in
the catalog. -/
def get_item_price (catalog : List InventoryItem) (item_name : String) : ℚ :=
  match findItem catalog item_name with
  | none => -1
  | some item => item.unit_price

/-- `process_customer_request`
(src/Multi Agent Systems/project/agents/orchestrator_agent.py, lines 199-217):
builds the full request, runs the orchestrator, and converts any raised
exception into the apology message carrying `str(e)`. The orchestrator run is
a black-box `String → Except String String` parameter. -/
def process_customer_request (run : String → Except String String)
    (request date : String) : String :=
  let full_request := request ++ ("\n\n(Request date: ") ++ date ++ (")")
  match run full_request with
  | Except.ok response => response
  | Except.error e =>
    ("We apologize, but we encountered an error processing your request: ") ++ e

/-- One draft-judge round of the Evaluator (spec §4.3 EvaluationRound). -/
structure EvalRound where
  attempt_index : Nat
  draft_response : String
  accepted : Bool
  reason : String

/-- The record returned by the Evaluator method evaluate (spec §4.3). -/
structure EvalResult where
  final_response : String
  rounds : List EvalRound
  accepted : Bool

/-- Modelled from the spec: the `EvaluationAgent` class
(`workflow_agents.base_agents`), whose `evaluate` loop is only instantiated in
src/Agentic Workflows/project/starter/phase_2/agentic_workflow.py and whose
definition is not among the sources. Spec §4.3: per round, the wrapped handler
drafts a response to the current prompt, the judge returns a verdict and a
reason; on acceptance return immediately with `accepted = true`; on rejection
the next prompt is the prompt of the caller concatenated with the rejection reason;
on reaching the iteration cap, return the last draft with `accepted = false`.
The handler and judge take the round index so that the model covers any
sequence of oracle answers. -/
def evaluateGo (handler : Nat → String → String) (judge : Nat → String → Bool × String)
    (origPrompt : String) : Nat → String → List EvalRound → EvalResult
  | 0, _, rounds =>
    ⟨((rounds.getLast?).map EvalRound.draft_response).getD (""), rounds, false⟩
  | Nat.succ n, prompt, rounds =>
    let draft := handler rounds.length prompt
    let verdict := judge rounds.length draft
    let round : EvalRound := ⟨rounds.length + 1, draft, verdict.fst, verdict.snd⟩
    if verdict.fst then ⟨draft, rounds ++ [round], true⟩
    else evaluateGo handler judge origPrompt n (origPrompt ++ ("\n") ++ verdict.snd)
      (rounds ++ [round])

/-- Modelled from the spec: entry point of the Evaluator loop, starting from
the prompt of the caller with an empty round history (spec §4.3, cap default 3). -/
def evaluate (handler : Nat → String → String) (judge : Nat → String → Bool × String)
    (prompt : String) (max_iterations : Nat) : EvalResult :=
  evaluateGo handler judge prompt max_iterations prompt []

/-! Helper lemmas about the derived ledger views. -/

theorem sum_stockDelta_filter (sel : Txn → Bool) (l : List Txn) :
    ((l.filter sel).map stockDelta).sum =
      ((l.filter (fun t => t.transaction_type == ("stock_orders") && sel t)).map Txn.units).sum
      - ((l.filter (fun t => t.transaction_type == ("sales") && sel t)).map Txn.units).sum := by
  induction l with
  | nil => simp
  | cons t l ih =>
    simp only [List.filter_cons]
    by_cases hsel : sel t
    · by_cases ho : t.transaction_type = ("stock_orders")
      · simp [hsel, ho, stockDelta, ih]
        ring
      · by_cases hs : t.transaction_type = ("sales")
        · simp [hsel, ho, hs, stockDelta, ih]
          ring
        · simp [hsel, ho, hs, stockDelta, ih]
    · simp [hsel, ih]

theorem cashFromRows_eq (rows : List Txn) :
    cashFromRows rows =
      ((rows.filter (fun t => t.transaction_type == ("sales"))).map Txn.price).sum
      - ((rows.filter (fun t => t.transaction_type == ("stock_orders"))).map Txn.price).sum := by
  cases rows with
  | nil => simp [cashFromRows]
  | cons t l => simp [cashFromRows]

/-- C1: for every store result, date, purchase amount and safety margin,
`approve_purchase` approves exactly when the amount is at most the cash
balance times (1 - safety_margin); at the exact boundary, where the amount
equals `available_for_purchase`, the purchase is approved. -/
theorem approve_purchase_spec (store : Except String (List Txn)) (amount : ℚ)
    (date : Nat) (m : ℚ) :
    ((approve_purchase store amount date m).approved = true ↔
      amount ≤ get_cash_balance store date * (1 - m)) ∧
    (amount = (approve_purchase store amount date m).available_for_purchase →
      (approve_purchase store amount date m).approved = true) := by
  have hb : get_cash_balance store date - get_cash_balance store date * m =
      get_cash_balance store date * (1 - m) := by ring
  constructor
  · simp [approve_purchase, hb]
  · intro h
    simp only [approve_purchase, decide_eq_true_eq] at h ⊢
    exact le_of_eq h

/-- C2: the derived ledger views. The stock of an item is the dated-up-to
sum of `stock_orders` units minus `sales` units for that item; the cash
balance is the dated-up-to sum of `sales` prices minus `stock_orders`
prices; appending a transaction dated strictly after the as-of date changes
neither value. -/
theorem ledger_views_spec (txns : List Txn) (item : String) (as_of : Nat) :
    get_stock_level txns item as_of =
      ((txns.filter (fun t => t.transaction_type == ("stock_orders") &&
          (t.item_name == item && decide (t.transaction_date ≤ as_of)))).map Txn.units).sum
      - ((txns.filter (fun t => t.transaction_type == ("sales") &&
          (t.item_name == item && decide (t.transaction_date ≤ as_of)))).map Txn.units).sum ∧
    get_cash_balance (Except.ok txns) as_of =
      ((txns.filter (fun t => t.transaction_type == ("sales") &&
          decide (t.transaction_date ≤ as_of))).map Txn.price).sum
      - ((txns.filter (fun t => t.transaction_type == ("stock_orders") &&
          decide (t.transaction_date ≤ as_of))).map Txn.price).sum ∧
    (∀ t : Txn, as_of < t.transaction_date →
      get_stock_level (txns ++ [t]) item as_of = get_stock_level txns item as_of ∧
      get_cash_balance (Except.ok (txns ++ [t])) as_of = get_cash_balance (Except.ok txns) as_of) := by
  refine ⟨?_, ?_, ?_⟩
  · rw [get_stock_level, sum_stockDelta_filter]
  · rw [get_cash_balance, cashFromRows_eq]
    simp [List.filter_filter]
  · intro t ht
    have hsel : decide (t.transaction_date ≤ as_of) = false := by
      simp [Nat.not_le_of_lt ht]
    constructor
    · simp [get_stock_level, List.filter_append, hsel]
    · simp [get_cash_balance, List.filter_append, hsel]

/-! Concrete ledger data used by the closed witness statements. -/

def demoTxns : List Txn :=
  [Txn.mk ("A4 paper") ("sales") 100 500 1,
   Txn.mk ("A4 paper") ("stock_orders") 1000 200 1]

def demoLateTxn : Txn := Txn.mk ("A4 paper") ("sales") 5 25 9

theorem demoTxns_cash : get_cash_balance (Except.ok demoTxns) 2 = 300 := by
  simp [get_cash_balance, demoTxns, cashFromRows, List.filter_cons]
  norm_num

theorem approve_purchase_spec_witness :
    (approve_purchase (Except.ok demoTxns) 240 2 (1 / 5)).approved = true :=
  (approve_purchase_spec (Except.ok demoTxns) 240 2 (1 / 5)).2
    (by norm_num [approve_purchase, demoTxns_cash])

theorem ledger_views_spec_witness :
    get_stock_level (demoTxns ++ [demoLateTxn]) ("A4 paper") 2 =
      get_stock_level demoTxns ("A4 paper") 2 ∧
    get_cash_balance (Except.ok (demoTxns ++ [demoLateTxn])) 2 =
      get_cash_balance (Except.ok demoTxns) 2 :=
  (ledger_views_spec demoTxns ("A4 paper") 2).2.2 demoLateTxn (by decide)

/-- C3: `calculate_quote_price` sums quantities into `total_units`, applies a
single discount tier to the summed subtotal (0% up to 500 units, 10% from 501
to 1000, 15% above 1000), and the 600-unit at $0.05 scenario yields subtotal
$30, discount $3 and total $27. -/
theorem calculate_quote_price_spec :
    (∀ items : List LineItem,
      (calculate_quote_price items).total_units = (items.map LineItem.quantity).sum ∧
      (calculate_quote_price items).subtotal =
        (items.map (fun i => (i.quantity : ℚ) * i.unit_price)).sum ∧
      (calculate_quote_price items).discount_percent =
        (if (items.map LineItem.quantity).sum ≤ 500 then 0
         else if (items.map LineItem.quantity).sum ≤ 1000 then 10 else 15) ∧
      (calculate_quote_price items).discount_amount =
        (calculate_quote_price items).subtotal *
          ((calculate_quote_price items).discount_percent / 100) ∧
      (calculate_quote_price items).total =
        (calculate_quote_price items).subtotal - (calculate_quote_price items).discount_amount) ∧
    (calculate_quote_price [LineItem.mk ("x") 500 1]).discount_percent = 0 ∧
    (calculate_quote_price [LineItem.mk ("x") 501 1]).discount_percent = 10 ∧
    (calculate_quote_price [LineItem.mk ("x") 1000 1]).discount_percent = 10 ∧
    (calculate_quote_price [LineItem.mk ("x") 1001 1]).discount_percent = 15 ∧
    (calculate_quote_price [LineItem.mk ("A4 paper") 600 (1 / 20)]).subtotal = 30 ∧
    (calculate_quote_price [LineItem.mk ("A4 paper") 600 (1 / 20)]).discount_percent = 10 ∧
    (calculate_quote_price [LineItem.mk ("A4 paper") 600 (1 / 20)]).discount_amount = 3 ∧
    (calculate_quote_price [LineItem.mk ("A4 paper") 600 (1 / 20)]).total = 27 := by
  refine ⟨?_, by norm_num [calculate_quote_price], by norm_num [calculate_quote_price],
    by norm_num [calculate_quote_price], by norm_num [calculate_quote_price],
    by norm_num [calculate_quote_price], by norm_num [calculate_quote_price],
    by norm_num [calculate_quote_price], by norm_num [calculate_quote_price]⟩
  intro items
  cases items with
  | nil => refine ⟨rfl, rfl, by norm_num [calculate_quote_price], by simp [calculate_quote_price],
      by simp [calculate_quote_price]⟩
  | cons a l => exact ⟨rfl, rfl, rfl, rfl, rfl⟩

/-- C5: `create_transaction` rejects any transaction type outside
`{sales, stock_orders}` with an error before any write, leaving the log
unchanged; for the two allowed types it appends exactly one row and returns
the 1-based id of that row. -/
theorem create_transaction_spec (item ty : String) (q : Int) (p : ℚ) (d : Nat)
    (log : List Txn) :
    (ty ≠ ("stock_orders") → ty ≠ ("sales") →
      create_transaction item ty q p d log =
        Except.error ("Transaction type must be stock_orders or sales")) ∧
    ((ty = ("stock_orders") ∨ ty = ("sales")) →
      create_transaction item ty q p d log =
        Except.ok (log.length + 1, log ++ [Txn.mk item ty q p d])) := by
  constructor
  · intro h1 h2
    simp [create_transaction, h1, h2]
  · intro h
    have h1 : ¬(ty ≠ ("stock_orders") ∧ ty ≠ ("sales")) := by
      rcases h with h | h <;> simp [h]
    simp [create_transaction, h1]

theorem create_transaction_spec_witness :
    create_transaction ("A4 paper") ("coupon") 1 1 1 [] =
      Except.error ("Transaction type must be stock_orders or sales") ∧
    create_transaction ("A4 paper") ("sales") 1 1 1 [] =
      Except.ok (1, [Txn.mk ("A4 paper") ("sales") 1 1 1]) := by
  constructor
  · exact (create_transaction_spec ("A4 paper") ("coupon") 1 1 1 []).1 (by decide) (by decide)
  · exact (create_transaction_spec ("A4 paper") ("sales") 1 1 1 []).2 (Or.inr rfl)

/-- C7: the delivery lead time is monotonically non-decreasing in the order
quantity, maps the boundary quantities 10, 11, 100, 101, 1000, 1001 to
0, 1, 1, 4, 4, 7 days, and the delivery date is the order date plus the lead
time. -/
theorem delivery_timeline_spec :
    (∀ q1 q2 : Int, q1 ≤ q2 → lead_time_days q1 ≤ lead_time_days q2) ∧
    lead_time_days 10 = 0 ∧ lead_time_days 11 = 1 ∧ lead_time_days 100 = 1 ∧
    lead_time_days 101 = 4 ∧ lead_time_days 1000 = 4 ∧ lead_time_days 1001 = 7 ∧
    (∀ (d : Nat) (q : Int),
      (check_delivery_timeline d q).delivery_date =
        d + (check_delivery_timeline d q).lead_time_days) := by
  refine ⟨?_, by decide, by decide, by decide, by decide, by decide, by decide, ?_⟩
  · intro q1 q2 h
    unfold lead_time_days
    split_ifs <;> omega
  · intro d q
    rfl

theorem delivery_timeline_spec_witness :
    lead_time_days 50 ≤ lead_time_days 600 :=
  delivery_timeline_spec.1 50 600 (by decide)

/-! Orchestrator runs used by the C4 counterexample and witness. -/

def runBoom : String → Except String String :=
  fun _ => Except.error ("database connection failed")

def runBoom2 : String → Except String String :=
  fun _ => Except.error ("max steps exceeded")

/-- C4 counterexample: when the orchestrator run raises, the string returned
by `process_customer_request` embeds the raw exception text verbatim, and two
different exceptions produce two different customer-facing strings — the
apology is not generic and does expose raw error detail. -/
theorem process_customer_request_counterexample :
    process_customer_request runBoom ("I need 200 reams of paper") ("2025-01-01") =
      ("We apologize, but we encountered an error processing your request: " ++
        ("database connection failed")) ∧
    process_customer_request runBoom ("I need 200 reams of paper") ("2025-01-01") ≠
      process_customer_request runBoom2 ("I need 200 reams of paper") ("2025-01-01") := by
  constructor
  · rfl
  · decide

/-- C4 as amended: `process_customer_request` always returns a string and
never raises past its boundary; on a successful run it returns the response
of the run, and when the run raises it returns the apology message with the
text of the raised error appended (raw error detail is exposed). -/
theorem process_customer_request_amended (run : String → Except String String)
    (request date : String) :
    (∀ r, run (request ++ ("\n\n(Request date: ") ++ date ++ (")")) = Except.ok r →
      process_customer_request run request date = r) ∧
    (∀ e, run (request ++ ("\n\n(Request date: ") ++ date ++ (")")) = Except.error e →
      process_customer_request run request date =
        ("We apologize, but we encountered an error processing your request: ") ++ e) := by
  constructor <;> intro x hx <;> simp [process_customer_request, hx]

theorem process_customer_request_amended_witness :
    process_customer_request runBoom ("Need paper") ("2025-01-01") =
      ("We apologize, but we encountered an error processing your request: ") ++
        ("database connection failed") :=
  (process_customer_request_amended runBoom ("Need paper") ("2025-01-01")).2
    ("database connection failed") rfl

/-! Inventory catalog data used by the C8 and C10 witnesses. -/

def demoItem : InventoryItem := InventoryItem.mk ("A4 paper") ("paper") (1 / 20) 500

def demoCatalog : List InventoryItem := [demoItem]

def demoTxns8 : List Txn :=
  [Txn.mk ("A4 paper") ("stock_orders") 1000 50 1,
   Txn.mk ("A4 paper") ("sales") 520 26 2]

/-- C8: for an item present in the catalog, `check_restock_needed` reports
`needs_restock` exactly when the derived stock is below the catalog minimum;
when it does, the recommended reorder quantity restores stock to twice the
minimum and the estimated cost is that quantity times the unit price; when it
does not, both are zero. -/
theorem check_restock_needed_spec (catalog : List InventoryItem) (txns : List Txn)
    (name : String) (date : Nat) (item : InventoryItem)
    (hfind : findItem catalog name = some item) :
    ∃ info : RestockInfo,
      check_restock_needed catalog txns name date = some info ∧
      info.current_stock = get_stock_level txns name date ∧
      info.min_stock_level = item.min_stock_level ∧
      (info.needs_restock = true ↔ info.current_stock < item.min_stock_level) ∧
      (info.needs_restock = true →
        info.recommended_reorder_qty = 2 * item.min_stock_level - info.current_stock ∧
        info.estimated_reorder_cost = (info.recommended_reorder_qty : ℚ) * item.unit_price) ∧
      (info.needs_restock = false →
        info.recommended_reorder_qty = 0 ∧ info.estimated_reorder_cost = 0) := by
  simp only [check_restock_needed, hfind]
  by_cases hlt : get_stock_level txns name date < item.min_stock_level
  · refine ⟨_, rfl, rfl, rfl, by simp [hlt], ?_, by simp [hlt]⟩
    intro _
    constructor
    · simp only [if_pos hlt]
      omega
    · simp only [if_pos hlt]
  · refine ⟨_, rfl, rfl, rfl, by simp [hlt], by simp [hlt], by simp [hlt]⟩

theorem check_restock_needed_spec_witness :
    ∃ info : RestockInfo,
      check_restock_needed demoCatalog demoTxns8 ("A4 paper") 3 = some info ∧
      info.current_stock = 480 ∧ info.recommended_reorder_qty = 520 := by
  obtain ⟨info, heq, hcs, hmin, hiff, himp, _⟩ :=
    check_restock_needed_spec demoCatalog demoTxns8 ("A4 paper") 3 demoItem rfl
  have hstock : get_stock_level demoTxns8 ("A4 paper") 3 = 480 := by decide
  have hneeds : info.needs_restock = true := by
    rw [hiff, hcs, hstock]
    decide
  obtain ⟨hqty, _⟩ := himp hneeds
  refine ⟨info, heq, by rw [hcs, hstock], ?_⟩
  rw [hqty, hcs, hstock]
  decide

/-- C9: when the transactions query fails, `get_cash_balance` returns 0
exactly as it does for an empty transaction log, so `approve_purchase` on a
failed store rejects every positive purchase amount. -/
theorem cash_balance_failure_spec (e : String) (date : Nat) (amount m : ℚ) :
    get_cash_balance (Except.error e) date = 0 ∧
    get_cash_balance (Except.error e) date = get_cash_balance (Except.ok []) date ∧
    (0 < amount → (approve_purchase (Except.error e) amount date m).approved = false) := by
  refine ⟨rfl, by simp [get_cash_balance, cashFromRows], ?_⟩
  intro h
  simp only [approve_purchase, get_cash_balance, decide_eq_false_iff_not, not_le]
  linarith

theorem cash_balance_failure_spec_witness :
    (approve_purchase (Except.error ("no such table: transactions")) 100 1 (1 / 5)).approved
      = false :=
  (cash_balance_failure_spec ("no such table: transactions") 1 100 (1 / 5)).2.2 (by norm_num)

/-- C10: `get_item_price` returns the sentinel -1 for any item name missing
from the catalog, and when all catalog prices are nonnegative a negative
return value characterizes exactly the not-found case. -/
theorem get_item_price_sentinel_spec (catalog : List InventoryItem) (name : String) :
    (findItem catalog name = none → get_item_price catalog name = -1) ∧
    ((∀ i ∈ catalog, 0 ≤ i.unit_price) →
      (get_item_price catalog name < 0 ↔ findItem catalog name = none)) := by
  constructor
  · intro h
    simp [get_item_price, h]
  · intro hpos
    cases hfind : findItem catalog name with
    | none => simp [get_item_price, hfind]
    | some item =>
      have hmem : item ∈ catalog := List.mem_of_find?_eq_some hfind
      have hge := hpos item hmem
      simp only [get_item_price, hfind]
      constructor
      · intro hlt
        exact absurd hlt (not_lt.mpr hge)
      · intro hcontra
        exact absurd hcontra (by simp)

theorem get_item_price_sentinel_spec_witness :
    get_item_price demoCatalog ("Glossy poster board") = -1 :=
  (get_item_price_sentinel_spec demoCatalog ("Glossy poster board")).1 rfl

/-! Helper lemma for the Evaluator loop, generalized over the accumulated
round history. -/

theorem evaluateGo_spec (handler : Nat → String → String)
    (judge : Nat → String → Bool × String) (orig : String) (n : Nat) :
    ∀ (prompt : String) (acc : List EvalRound),
      (evaluateGo handler judge orig n prompt acc).rounds.length ≤ acc.length + n ∧
      ((evaluateGo handler judge orig n prompt acc).accepted = false →
        (evaluateGo handler judge orig n prompt acc).rounds.length = acc.length + n ∧
        (evaluateGo handler judge orig n prompt acc).final_response =
          (((evaluateGo handler judge orig n prompt acc).rounds.getLast?).map
            EvalRound.draft_response).getD ("")) := by
  induction n with
  | zero =>
    intro prompt acc
    simp [evaluateGo]
  | succ n ih =>
    intro prompt acc
    by_cases hv : (judge acc.length (handler acc.length prompt)).fst = true
    · simp only [evaluateGo, hv, if_true, List.length_append, List.length_cons,
        List.length_nil]
      constructor
      · omega
      · intro hacc
        exact absurd hacc (by simp)
    · have hv2 : (judge acc.length (handler acc.length prompt)).fst = false :=
        Bool.eq_false_iff.mpr hv
      have hrec := ih (orig ++ ("\n") ++ (judge acc.length (handler acc.length prompt)).snd)
        (acc ++ [EvalRound.mk (acc.length + 1) (handler acc.length prompt)
          (judge acc.length (handler acc.length prompt)).fst
          (judge acc.length (handler acc.length prompt)).snd])
      simp only [evaluateGo, hv2, Bool.false_eq_true, if_false, List.length_append,
        List.length_cons, List.length_nil] at hrec ⊢
      constructor
      · omega
      · intro hacc
        obtain ⟨h1, h2⟩ := hrec.2 hacc
        exact ⟨by omega, h2⟩

/-- C6: the Evaluator loop (modelled from spec §4.3, since the
`EvaluationAgent` class body is not among the sources) terminates after at
most `max_iterations` draft-judge rounds; when no draft is accepted it runs
exactly `max_iterations` rounds and returns `accepted = false` with
`final_response` equal to the draft of the last round produced. -/
theorem evaluate_loop_spec (handler : Nat → String → String)
    (judge : Nat → String → Bool × String) (prompt : String) (max_iterations : Nat) :
    (evaluate handler judge prompt max_iterations).rounds.length ≤ max_iterations ∧
    ((evaluate handler judge prompt max_iterations).accepted = false →
      (evaluate handler judge prompt max_iterations).rounds.length = max_iterations ∧
      (evaluate handler judge prompt max_iterations).final_response =
        (((evaluate handler judge prompt max_iterations).rounds.getLast?).map
          EvalRound.draft_response).getD ("")) := by
  have h := evaluateGo_spec handler judge prompt max_iterations prompt []
  simpa [evaluate] using h

def demoHandler : Nat → String → String := fun _ p => p ++ ("!")

def demoJudge : Nat → String → Bool × String := fun _ _ => (false, ("missing persona"))

theorem evaluate_loop_spec_witness :
    (evaluate demoHandler demoJudge ("Write the user stories") 3).rounds.length = 3 ∧
    (evaluate demoHandler demoJudge ("Write the user stories") 3).final_response =
      ((((evaluate demoHandler demoJudge ("Write the user stories") 3).rounds.getLast?).map
        EvalRound.draft_response).getD ("")) :=
  (evaluate_loop_spec demoHandler demoJudge ("Write the user stories") 3).2 (by decide)

end MunderDifflin
